import Mathlib

/-!
Shallow embedding of the ConoHa VPS v3 Python SDK core (conoha/client.py,
conoha/base.py, conoha/exceptions.py, conoha/config.py).

Modelling conventions:
  * Python `dict[str, str]` values become association lists (`Dict` below)
    whose assignment semantics mirror CPython: assigning to an existing key
    replaces its value in place, assigning a fresh key appends it.
  * Optional / possibly-`None` Python strings become `Option String`;
    Python truthiness of such a value (`if self._token:`) is `truthy` below
    (`None` and the empty string are falsy).
  * Instants (`time.time()`, `datetime.timestamp()`) are modelled as `Int`
    seconds; the ISO-8601 parse in `authenticate` is abstracted by letting
    the modelled identity response carry the already-parsed timestamp.
  * Methods that mutate `self` become functions `State → ... → State × result`;
    a Python `raise` is an `Except.error` (or `Option`) result, and the state
    returned alongside it reflects exactly the mutations performed before the
    raise, in source order.
  * The HTTP transport is scripted: `requests.request` results are supplied as
    a function `Nat → HttpResponse` giving the n-th response of the call, and
    each embedded operation reports how many transport calls and how many
    `authenticate()` calls it performed.
-/

/-- JSON values as far as `BaseService._handle_response` inspects them:
string leaves, objects (association lists of fields), and an opaque
constructor for every other JSON shape. -/
inductive Json where
  | str (s : String)
  | obj (fields : List (String × Json))
  | other
deriving Repr

/-- Membership-and-index access (`"k" in body` then `body["k"]`) on a JSON
object; `none` on non-objects. -/
def Json.getKey (j : Json) (k : String) : Option Json :=
  match j with
  | .obj fields => fields.lookup k
  | _ => none

/-- Association-list model of a Python `dict[str, str]`. -/
abbrev Dict := List (String × String)

/-- Lookup, covering both `d.get(k)` and `k in d`: the value when the key is
present. -/
def Dict.get (d : Dict) (k : String) : Option String :=
  List.lookup k d

/-- Assignment `d[k] = v`: replace in place when the key exists, else append. -/
def Dict.insert (d : Dict) (k v : String) : Dict :=
  if (List.lookup k d).isSome then
    d.map (fun p => if p.1 == k then (k, v) else p)
  else
    d ++ [(k, v)]

/-! ## conoha/exceptions.py -/

/-- The concrete exception classes raised by `BaseService._handle_response`
(conoha/exceptions.py). `TokenExpiredError` derives `AuthenticationError`
(which derives the plain `ConoHaError`/`Exception`); the other five derive
`APIError`, whose `__init__(message, status_code, response)` stores
`status_code` on the instance. -/
inductive ErrClass where
  | BadRequestError
  | TokenExpiredError
  | ForbiddenError
  | NotFoundError
  | ConflictError
  | APIError
deriving DecidableEq, Repr

/-- Whether the class is `APIError` or one of its subclasses, i.e. whether its
constructor stores the `status_code` attribute (conoha/exceptions.py lines
16-38). `TokenExpiredError` is the one raised class outside that family. -/
def ErrClass.isAPIErrorSubclass : ErrClass → Bool
  | .TokenExpiredError => false
  | _ => true

/-- An exception instance as raised by
`raise error_class(message, response.status_code, response)`: the class, the
first positional argument (the message) and the second positional argument
(the response's status code). Whether the latter ends up as a `status_code`
attribute depends on the class, see `RaisedError.status_code`. -/
structure RaisedError where
  cls : ErrClass
  message : String
  status_arg : Nat
deriving DecidableEq, Repr

/-- The `status_code` attribute of the raised instance: present (set by
`APIError.__init__`) exactly for the `APIError` family; `TokenExpiredError`
passes its constructor arguments to `Exception` and gains no such attribute. -/
def RaisedError.status_code (e : RaisedError) : Option Nat :=
  if e.cls.isAPIErrorSubclass then some e.status_arg else none

/-! ## conoha/base.py -/

/-- A `requests` response as far as `BaseService._handle_response` reads it:
the integer status, the parsed JSON body (`none` models `response.json()`
raising `ValueError` on an unparseable body) and the raw `response.text`. -/
structure HttpResponse where
  status_code : Nat
  bodyJson : Option Json
  text : String
deriving Repr

/-- The `error_map` literal of `BaseService._handle_response` (base.py lines
62-69): status → exception class, defaulting to `APIError`. -/
def error_map (status : Nat) : ErrClass :=
  match status with
  | 400 => .BadRequestError
  | 401 => .TokenExpiredError
  | 403 => .ForbiddenError
  | 404 => .NotFoundError
  | 409 => .ConflictError
  | _ => .APIError

/-- The message computation of `BaseService._handle_response` (base.py lines
52-60): start from `"HTTP <status>"`; if the body parses as JSON, take
`body["error"].get("message", message)` when `"error"` is a key, else
`body["message"]` when that is a key; if parsing raises `ValueError`, fall
back to `response.text or message`. (Bodies are modelled as JSON objects
with string-valued relevant fields; a non-string value under the inspected
keys is rendered opaquely.) -/
def error_message (status : Nat) (body : Option Json) (text : String) : String :=
  let message := "HTTP " ++ toString status
  match body with
  | none => if text == "" then message else text
  | some b =>
    match b.getKey "error" with
    | some errVal =>
      match errVal.getKey "message" with
      | some (.str m) => m
      | some _ => "<non-string message>"
      | none => message
    | none =>
      match b.getKey "message" with
      | some (.str m) => m
      | some _ => "<non-string message>"
      | none => message

/-- Embedding of `BaseService._handle_response` (base.py lines 50-70): `none` when the
status is below 400, otherwise the exception instance it raises. -/
def BaseService._handle_response (r : HttpResponse) : Option RaisedError :=
  if r.status_code ≥ 400 then
    some { cls := error_map r.status_code
           message := error_message r.status_code r.bodyJson r.text
           status_arg := r.status_code }
  else
    none

/-! ## conoha/config.py -/

/-- The `BASE_URLS` table (config.py lines 7-16): logical service name → URL template
with a `{region}` placeholder. -/
def BASE_URLS : Dict :=
  [("identity", "https://identity.{region}.conoha.io"),
   ("compute", "https://compute.{region}.conoha.io"),
   ("block_storage", "https://block-storage.{region}.conoha.io"),
   ("image", "https://image-service.{region}.conoha.io"),
   ("network", "https://networking.{region}.conoha.io"),
   ("load_balancer", "https://lbaas.{region}.conoha.io"),
   ("dns", "https://dns-service.{region}.conoha.io"),
   ("object_storage", "https://object-storage.{region}.conoha.io")]

/-- The `ENDPOINT_ENV_MAP` table (config.py lines 21-30): environment variable name →
logical service name. -/
def ENDPOINT_ENV_MAP : Dict :=
  [("CONOHA_ENDPOINT_IDENTITY", "identity"),
   ("CONOHA_ENDPOINT_COMPUTE", "compute"),
   ("CONOHA_ENDPOINT_BLOCK_STORAGE", "block_storage"),
   ("CONOHA_ENDPOINT_IMAGE", "image"),
   ("CONOHA_ENDPOINT_NETWORK", "network"),
   ("CONOHA_ENDPOINT_LOAD_BALANCER", "load_balancer"),
   ("CONOHA_ENDPOINT_DNS", "dns"),
   ("CONOHA_ENDPOINT_OBJECT_STORAGE", "object_storage")]

/-- The `DEFAULT_REGION` constant (config.py line 4). -/
def DEFAULT_REGION : String := "c3j1"

/-! ## conoha/client.py -/

/-- Python truthiness of an optional string: `None` and `""` are falsy. -/
def truthy : Option String → Bool
  | none => false
  | some s => !(s == "")

/-- The mutable fields of a `ConoHaClient` instance, as set by `__init__`
(client.py lines 43-88) and mutated by `authenticate`. The eight lazily
cached resource-module fields (`_identity` … `_object_storage`) are omitted:
no claim concerns them. `timeout` is carried but never inspected by the
modelled operations. -/
structure ConoHaClient where
  region : String
  timeout : Int
  _token : Option String
  _token_expires_at : Option Int
  _tenant_id : Option String
  _user_id : Option String
  _username : Option String
  _password : Option String
  _tenant_name : Option String
  _user_endpoints : Dict
  _env_endpoints : Dict
  _catalog_endpoints : Dict
deriving Repr

/-- The exceptions the client operations can raise: `AuthenticationError`
(with its message) from the token-manager paths, or one of the
`_handle_response` classes from a resource request. -/
inductive PyError where
  | authenticationError (message : String)
  | raised (e : RaisedError)
deriving DecidableEq, Repr

/-- Embedding of `ConoHaClient._is_token_expired` (client.py lines 108-111): a client with
no stored expiry is never expired; otherwise expired iff
`time.time() >= self._token_expires_at`. -/
def ConoHaClient._is_token_expired (s : ConoHaClient) (now : Int) : Bool :=
  match s._token_expires_at with
  | none => false
  | some t => now ≥ t

/-- Embedding of `ConoHaClient._load_env_endpoints` (client.py lines 113-121): for each
entry of `ENDPOINT_ENV_MAP`, if the environment variable is set to a truthy
value, record it under the service name with trailing `/` stripped. The
process environment is passed in as `environ`. -/
def ConoHaClient._load_env_endpoints (environ : Dict) : Dict :=
  ENDPOINT_ENV_MAP.foldl
    (fun endpoints p =>
      match Dict.get environ p.1 with
      | some v => if v == "" then endpoints
                  else Dict.insert endpoints p.2 (v.dropRightWhile (· == '/'))
      | none => endpoints)
    []

/-- Substitution core of `template.format(region=...)` for the `BASE_URLS`
templates, whose only
placeholder is `{region}`: replace every occurrence of that placeholder in
the character list. -/
def substRegion (region : String) : List Char → List Char
  | '\x7b' :: 'r' :: 'e' :: 'g' :: 'i' :: 'o' :: 'n' :: '\x7d' :: rest =>
      region.data ++ substRegion region rest
  | c :: rest => c :: substRegion region rest
  | [] => []

/-- Model of `template.format(region=region)` (client.py line 144). -/
def pyFormatRegion (template region : String) : String :=
  ⟨substRegion region template.data⟩

/-- Embedding of `ConoHaClient._get_endpoint` (client.py lines 123-145): the four-level
resolution chain — constructor overrides, environment overrides, catalog,
region-templated `BASE_URLS` (guarded by `if template:`) — and the final
`ValueError` naming the unknown service. -/
def ConoHaClient._get_endpoint (s : ConoHaClient) (service_name : String) :
    Except String String :=
  match Dict.get s._user_endpoints service_name with
  | some v => .ok v
  | none =>
  match Dict.get s._env_endpoints service_name with
  | some v => .ok v
  | none =>
  match Dict.get s._catalog_endpoints service_name with
  | some v => .ok v
  | none =>
  match Dict.get BASE_URLS service_name with
  | some template =>
      if template == "" then .error ("Unknown service: " ++ service_name)
      else .ok (pyFormatRegion template s.region)
  | none => .error ("Unknown service: " ++ service_name)

/-- One entry of an `endpoints` list in the service catalog: its
`interface` tag (if any) and its `url`. -/
structure CatalogEndpoint where
  interface : Option String
  url : String
deriving Repr

/-- One service entry of the catalog: its `type` string (`entry.get("type",
"")` defaults to `""`, so the field is total) and its endpoint list. -/
structure CatalogEntry where
  type : String
  endpoints : List CatalogEndpoint
deriving Repr

/-- The `service_map` literal of `ConoHaClient._parse_catalog` (client.py
lines 224-233): catalog service type → SDK logical name. -/
def service_map (service_type : String) : Option String :=
  match service_type with
  | "identity" => some "identity"
  | "compute" => some "compute"
  | "volumev3" => some "block_storage"
  | "image" => some "image"
  | "network" => some "network"
  | "load-balancer" => some "load_balancer"
  | "dns" => some "dns"
  | "object-store" => some "object_storage"
  | _ => none

/-- Embedding of `ConoHaClient._parse_catalog` (client.py lines 222-241): for each catalog
entry with a known type, record the first `"public"`-interface endpoint's URL
into `self._catalog_endpoints` under the SDK name. The dict is assigned into,
never cleared or replaced, so entries absent from `catalog` survive. -/
def ConoHaClient._parse_catalog (s : ConoHaClient) (catalog : List CatalogEntry) :
    ConoHaClient :=
  catalog.foldl
    (fun st entry =>
      match service_map entry.type with
      | none => st
      | some sdk_name =>
        match entry.endpoints.find? (fun ep => ep.interface == some "public") with
        | none => st
        | some ep =>
          { st with _catalog_endpoints := st._catalog_endpoints.insert sdk_name ep.url })
    s

/-- The token payload of a `201` identity response as `authenticate` reads it:
`resp.headers.get("x-subject-token")`, and from `resp.json()["token"]` the
optional `expires_at` (already parsed to an epoch second), the optional
project id, the optional user id, and the catalog list. `text` is the raw
body used in failure messages. -/
structure IdentityResponse where
  status_code : Nat
  subject_token : Option String
  expires_at : Option Int
  project : Option String
  user : Option String
  catalog : List CatalogEntry
  text : String
deriving Repr

/-- Embedding of `ConoHaClient.authenticate` (client.py lines 147-220), from the point the
identity response `resp` is in hand (`now` is `time.time()`). A non-201
status raises `AuthenticationError` before any field is assigned, so the
input state is returned untouched next to the error. On 201 the method sets
`_token` from the `x-subject-token` header, `_token_expires_at` from
`expires_at` minus a 300 s buffer (or `now + 86400 - 300` when absent),
`_tenant_id` / `_user_id` when the body carries them, parses the catalog, and
returns `self._token`. -/
def ConoHaClient.authenticate (s : ConoHaClient) (now : Int)
    (resp : IdentityResponse) : ConoHaClient × Except PyError (Option String) :=
  if resp.status_code ≠ 201 then
    (s, .error (.authenticationError
      ("Authentication failed: " ++ toString resp.status_code ++ " " ++ resp.text)))
  else
    let s := { s with _token := resp.subject_token }
    let expiry : Int :=
      match resp.expires_at with
      | some t => t - 300
      | none => now + 86400 - 300
    let s := { s with _token_expires_at := some expiry }
    let s := match resp.project with
      | some pid => { s with _tenant_id := some pid }
      | none => s
    let s := match resp.user with
      | some uid => { s with _user_id := some uid }
      | none => s
    let s := s._parse_catalog resp.catalog
    (s, .ok s._token)

/-- The `token` property (client.py lines 90-98): return the stored token when
it is truthy and not expired; else, when password-based credentials are
configured, call `authenticate()` and return the stored token; else raise
`AuthenticationError`. `authResp` scripts the identity response a triggered
`authenticate()` would receive; the middle component counts `authenticate()`
invocations (each of which is one identity HTTP POST). -/
def ConoHaClient.token (s : ConoHaClient) (now : Int) (authResp : IdentityResponse) :
    ConoHaClient × Nat × Except PyError (Option String) :=
  if truthy s._token && !(s._is_token_expired now) then
    (s, 0, .ok s._token)
  else if (truthy s._username || truthy s._user_id) && truthy s._password then
    match s.authenticate now authResp with
    | (s1, .error e) => (s1, 1, .error e)
    | (s1, .ok _) => (s1, 1, .ok s1._token)
  else
    (s, 0, .error (.authenticationError "No valid token. Call authenticate() first."))

/-- Embedding of `ConoHaClient.__init__` (client.py lines 43-88) up to (and excluding) the
auto-authentication call: the constructed state, paired with the condition
`not token and (username or user_id) and password` under which the
constructor would immediately call `authenticate()`. `environ` stands for the
process environment read by `_load_env_endpoints`. -/
def ConoHaClient.init (username password tenant_id user_id tenant_name : Option String)
    (region : String) (token : Option String) (timeout : Int)
    (endpoints : Dict) (environ : Dict) : ConoHaClient × Bool :=
  let s : ConoHaClient :=
    { region := region
      timeout := timeout
      _token := token
      _token_expires_at := none
      _tenant_id := tenant_id
      _user_id := user_id
      _username := username
      _password := password
      _tenant_name := tenant_name
      _user_endpoints := endpoints
      _env_endpoints := ConoHaClient._load_env_endpoints environ
      _catalog_endpoints := [] }
  (s, !truthy token && (truthy username || truthy user_id) && truthy password)

/-- The observable outcome of one `BaseService._request` call: how many
`requests.request` transport calls it made, how many `authenticate()` calls
it made, the client state afterwards, and the returned response or raised
exception. -/
structure RequestResult where
  httpCalls : Nat
  authCalls : Nat
  state : ConoHaClient
  result : Except PyError HttpResponse

/-- Embedding of `BaseService._request` (base.py lines 38-48): build the headers — which
reads `self._token`, i.e. the client's `token` property, possibly
re-authenticating — then issue exactly one `requests.request` call and run
`_handle_response` on its result, propagating the exception it raises, if
any. `transport n` scripts the result of the (n+1)-th `requests.request` call
of this invocation; `authResp` scripts the identity response should the token
property re-authenticate. The method body contains no retry logic, so at most
one transport call ever occurs. -/
def BaseService._request (s : ConoHaClient) (now : Int)
    (authResp : IdentityResponse) (transport : Nat → HttpResponse) : RequestResult :=
  match s.token now authResp with
  | (s1, n, .error e) => ⟨0, n, s1, .error e⟩
  | (s1, n, .ok _) =>
    let response := transport 0
    match BaseService._handle_response response with
    | some e => ⟨1, n, s1, .error (.raised e)⟩
    | none => ⟨1, n, s1, .ok response⟩

/-! ## Helper lemmas -/

/-- Replacing the value under `k` leaves lookups of a different key alone. -/
theorem lookup_map_replace (d : Dict) (k v k2 : String) (h : k2 ≠ k) :
    List.lookup k2 (d.map (fun p => if p.1 == k then (k, v) else p)) =
      List.lookup k2 d := by
  induction d with
  | nil => rfl
  | cons p rest ih =>
    obtain ⟨a, b⟩ := p
    simp only [List.map_cons]
    by_cases ha : a = k
    · subst ha
      have h2 : (k2 == a) = false := beq_eq_false_iff_ne.mpr h
      simp [List.lookup_cons, h2]
      simpa using ih
    · have h1 : (a == k) = false := beq_eq_false_iff_ne.mpr ha
      simp only [h1, Bool.false_eq_true, if_false, List.lookup_cons, ih]

/-- Appending a binding for `k` leaves lookups of a different key alone. -/
theorem lookup_append_single (d : Dict) (k v k2 : String) (h : k2 ≠ k) :
    List.lookup k2 (d ++ [(k, v)]) = List.lookup k2 d := by
  induction d with
  | nil => simp [List.lookup_cons, beq_eq_false_iff_ne.mpr h]
  | cons p rest ih =>
    obtain ⟨a, b⟩ := p
    simp only [List.cons_append, List.lookup_cons, ih]

/-- Assignment `d[k] = v` does not change the value stored under any other key. -/
theorem Dict.get_insert_ne (d : Dict) (k v k2 : String) (h : k2 ≠ k) :
    Dict.get (d.insert k v) k2 = Dict.get d k2 := by
  unfold Dict.insert
  split
  · exact lookup_map_replace d k v k2 h
  · exact lookup_append_single d k v k2 h

/-- Replacing the value under an existing key `k` makes lookups of `k` see
the new value. -/
theorem lookup_map_replace_self (d : Dict) (k v : String)
    (h : (List.lookup k d).isSome = true) :
    List.lookup k (d.map (fun p => if p.1 == k then (k, v) else p)) = some v := by
  induction d with
  | nil => simp [List.lookup] at h
  | cons p rest ih =>
    obtain ⟨a, b⟩ := p
    by_cases ha : a = k
    · subst ha
      simp [List.lookup_cons]
    · have h1 : (a == k) = false := beq_eq_false_iff_ne.mpr ha
      have h2 : (k == a) = false := beq_eq_false_iff_ne.mpr (fun hh => ha hh.symm)
      simp only [List.map_cons, h1, Bool.false_eq_true, if_false, List.lookup_cons, h2]
      apply ih
      simpa [List.lookup_cons, h2] using h

/-- Appending a binding for a key that is absent makes lookups of it see the
appended value. -/
theorem lookup_append_single_self (d : Dict) (k v : String)
    (h : (List.lookup k d).isSome = false) :
    List.lookup k (d ++ [(k, v)]) = some v := by
  induction d with
  | nil => simp [List.lookup_cons]
  | cons p rest ih =>
    obtain ⟨a, b⟩ := p
    by_cases ha : k = a
    · subst ha
      simp [List.lookup_cons] at h
    · have h2 : (k == a) = false := beq_eq_false_iff_ne.mpr ha
      simp only [List.cons_append, List.lookup_cons, h2]
      apply ih
      simpa [List.lookup_cons, h2] using h

/-- Assignment `d[k] = v` makes the value stored under `k` equal to `v`. -/
theorem Dict.get_insert_self (d : Dict) (k v : String) :
    Dict.get (d.insert k v) k = some v := by
  unfold Dict.insert Dict.get
  split
  · rename_i hh
    exact lookup_map_replace_self d k v hh
  · rename_i hh
    exact lookup_append_single_self d k v (Bool.eq_false_iff.mpr hh)

/-- The value the new catalog writes for a service name, if any: the URL of
the first `"public"`-interface endpoint of the *last* catalog entry whose
recognised type maps to that name (the fold of `_parse_catalog` lets later
entries overwrite earlier ones of the same type). -/
def catalogValue : List CatalogEntry → String → Option String
  | [], _ => none
  | entry :: rest, name =>
    match catalogValue rest name with
    | some u => some u
    | none =>
      match service_map entry.type with
      | none => none
      | some sdk_name =>
        if sdk_name = name then
          match entry.endpoints.find? (fun ep => ep.interface == some "public") with
          | none => none
          | some ep => some ep.url
        else none

/-- The fold of `_parse_catalog` touches only `_catalog_endpoints`: every other field of
the client state is unchanged. -/
theorem parse_catalog_other_fields (catalog : List CatalogEntry) (s : ConoHaClient) :
    (s._parse_catalog catalog)._token = s._token ∧
    (s._parse_catalog catalog)._token_expires_at = s._token_expires_at ∧
    (s._parse_catalog catalog)._tenant_id = s._tenant_id ∧
    (s._parse_catalog catalog)._user_id = s._user_id ∧
    (s._parse_catalog catalog)._user_endpoints = s._user_endpoints ∧
    (s._parse_catalog catalog)._env_endpoints = s._env_endpoints := by
  induction catalog generalizing s with
  | nil => exact ⟨rfl, rfl, rfl, rfl, rfl, rfl⟩
  | cons entry rest ih =>
    show ((ConoHaClient._parse_catalog · rest) _)._token = _ ∧ _
    unfold ConoHaClient._parse_catalog
    simp only [List.foldl_cons]
    cases service_map entry.type with
    | none => exact ih s
    | some sdk_name =>
      cases entry.endpoints.find? (fun ep => ep.interface == some "public") with
      | none => exact ih s
      | some ep =>
        exact ih { s with _catalog_endpoints := s._catalog_endpoints.insert sdk_name ep.url }

/-- Full characterization of the `_parse_catalog` merge: after the fold, a
service name maps to the value the new catalog writes for it when it writes
one, and otherwise keeps exactly the value it had before the fold ran. -/
theorem parse_catalog_lookup (catalog : List CatalogEntry) (s : ConoHaClient)
    (name : String) :
    Dict.get (s._parse_catalog catalog)._catalog_endpoints name =
      match catalogValue catalog name with
      | some u => some u
      | none => Dict.get s._catalog_endpoints name := by
  induction catalog generalizing s with
  | nil => rfl
  | cons entry rest ih =>
    unfold ConoHaClient._parse_catalog
    simp only [List.foldl_cons]
    rw [show (List.foldl _ _ rest) = ConoHaClient._parse_catalog _ rest from rfl, ih]
    cases hr : catalogValue rest name with
    | some u => simp only [catalogValue, hr]
    | none =>
      simp only [catalogValue, hr]
      cases hmap : service_map entry.type with
      | none => simp only [hmap]
      | some sdk_name =>
        cases hf : entry.endpoints.find? (fun ep => ep.interface == some "public") with
        | none => simp only [hmap, hf, ite_self]
        | some ep =>
          simp only [hmap, hf]
          by_cases hsn : sdk_name = name
          · subst hsn
            simp only [if_pos rfl]
            exact Dict.get_insert_self _ _ _
          · simp only [if_neg hsn]
            exact Dict.get_insert_ne _ _ _ _ (fun hh => hsn hh.symm)

/-! ## Concrete fixtures used by witnesses and counterexamples -/

/-- A client holding a valid token plus password credentials, mirroring the
repository's unit-test fixture (tests/unit/conftest.py). -/
def exampleClient : ConoHaClient :=
  { region := "c3j1"
    timeout := 30
    _token := some "test-token-12345"
    _token_expires_at := none
    _tenant_id := some "tenant-id-12345"
    _user_id := some "user-id-12345"
    _username := some "testuser"
    _password := some "testpass"
    _tenant_name := none
    _user_endpoints := []
    _env_endpoints := []
    _catalog_endpoints := [] }

/-! ## Claim C2 -/

/-- Claim C2, counterexample at status 401: `_handle_response` raises
`TokenExpiredError`, but that class derives `AuthenticationError`, not
`APIError`, so the raised instance has no `status_code` attribute (the
status travels only as an ignored positional argument). The claim demands a
`status_code` attribute equal to 401 for every status in the set, so it
fails here. -/
theorem c2_401_no_status_code :
    BaseService._handle_response ⟨401, none, "Unauthorized"⟩ =
      some ⟨ErrClass.TokenExpiredError, "Unauthorized", 401⟩ ∧
    RaisedError.status_code ⟨ErrClass.TokenExpiredError, "Unauthorized", 401⟩ = none := by
  exact ⟨rfl, rfl⟩

/-- Claim C2, amended: for statuses 400, 403, 404 and 409 the executor raises
exactly the mapped error class and the instance carries a `status_code`
attribute equal to the input status; for 401 it raises the mapped
`TokenExpiredError`, which receives the status as a constructor argument but
exposes no `status_code` attribute. -/
theorem c2_error_mapping (r : HttpResponse) :
    (r.status_code = 400 → ∃ e, BaseService._handle_response r = some e ∧
      e.cls = ErrClass.BadRequestError ∧ e.status_code = some 400) ∧
    (r.status_code = 403 → ∃ e, BaseService._handle_response r = some e ∧
      e.cls = ErrClass.ForbiddenError ∧ e.status_code = some 403) ∧
    (r.status_code = 404 → ∃ e, BaseService._handle_response r = some e ∧
      e.cls = ErrClass.NotFoundError ∧ e.status_code = some 404) ∧
    (r.status_code = 409 → ∃ e, BaseService._handle_response r = some e ∧
      e.cls = ErrClass.ConflictError ∧ e.status_code = some 409) ∧
    (r.status_code = 401 → ∃ e, BaseService._handle_response r = some e ∧
      e.cls = ErrClass.TokenExpiredError ∧ e.status_arg = 401 ∧
      e.status_code = none) := by
  refine ⟨?_, ?_, ?_, ?_, ?_⟩ <;> intro h <;>
    exact ⟨⟨error_map r.status_code, error_message r.status_code r.bodyJson r.text,
        r.status_code⟩,
      by simp [BaseService._handle_response, h],
      by simp [h, error_map],
      by simp [h, error_map, RaisedError.status_code, ErrClass.isAPIErrorSubclass]⟩

/-- Witness for `c2_error_mapping`: each of the five statuses exercised on a
concrete response. -/
theorem c2_error_mapping_witness :
    (∃ e, BaseService._handle_response ⟨400, none, "Bad"⟩ = some e ∧
      e.cls = ErrClass.BadRequestError ∧ e.status_code = some 400) ∧
    (∃ e, BaseService._handle_response ⟨403, none, "Forbidden"⟩ = some e ∧
      e.cls = ErrClass.ForbiddenError ∧ e.status_code = some 403) ∧
    (∃ e, BaseService._handle_response ⟨404, none, "Not Found"⟩ = some e ∧
      e.cls = ErrClass.NotFoundError ∧ e.status_code = some 404) ∧
    (∃ e, BaseService._handle_response ⟨409, none, "Conflict"⟩ = some e ∧
      e.cls = ErrClass.ConflictError ∧ e.status_code = some 409) ∧
    (∃ e, BaseService._handle_response ⟨401, none, "Unauthorized"⟩ = some e ∧
      e.cls = ErrClass.TokenExpiredError ∧ e.status_arg = 401 ∧
      e.status_code = none) :=
  ⟨(c2_error_mapping ⟨400, none, "Bad"⟩).1 rfl,
   (c2_error_mapping ⟨403, none, "Forbidden"⟩).2.1 rfl,
   (c2_error_mapping ⟨404, none, "Not Found"⟩).2.2.1 rfl,
   (c2_error_mapping ⟨409, none, "Conflict"⟩).2.2.2.1 rfl,
   (c2_error_mapping ⟨401, none, "Unauthorized"⟩).2.2.2.2 rfl⟩

/-! ## Claim C5 -/

/-- Claim C5, counterexample: a 400 response whose body parses as the JSON
object `{}` (no `error`, no `message` key) with non-empty raw text `"oops"`.
The claim's fallback chain would pick the raw text `"oops"`, but the code
keeps the generic `"HTTP 400"`: the raw-text fallback only runs when JSON
parsing raises `ValueError`. -/
theorem c5_json_body_skips_raw_text :
    BaseService._handle_response ⟨400, some (Json.obj []), "oops"⟩ =
      some ⟨ErrClass.BadRequestError, "HTTP 400", 400⟩ ∧
    "HTTP 400" ≠ "oops" := by
  exact ⟨rfl, by decide⟩

/-- Claim C5, amended: the message is `error.message` when the JSON body has
an `error` object with a string message, the generic `"HTTP <status>"` when
the `error` object lacks a `message` key, else the top-level `message`, else
the generic string; the raw response text is used only when the body does not
parse as JSON (and the generic string when that text is empty). -/
theorem c5_message_rule (status : Nat) (body : Option Json) (text : String) :
    (body = none → text ≠ "" → error_message status body text = text) ∧
    (body = none → text = "" →
      error_message status body text = "HTTP " ++ toString status) ∧
    (∀ b e m, body = some b → b.getKey "error" = some e →
      e.getKey "message" = some (Json.str m) →
      error_message status body text = m) ∧
    (∀ b e, body = some b → b.getKey "error" = some e →
      e.getKey "message" = none →
      error_message status body text = "HTTP " ++ toString status) ∧
    (∀ b m, body = some b → b.getKey "error" = none →
      b.getKey "message" = some (Json.str m) →
      error_message status body text = m) ∧
    (∀ b, body = some b → b.getKey "error" = none →
      b.getKey "message" = none →
      error_message status body text = "HTTP " ++ toString status) := by
  refine ⟨?_, ?_, ?_, ?_, ?_, ?_⟩
  · intro hb ht
    subst hb
    simp [error_message, beq_eq_false_iff_ne.mpr ht]
  · intro hb ht
    subst hb ht
    simp [error_message]
  · intro b e m hb he hm
    subst hb
    simp [error_message, he, hm]
  · intro b e hb he hm
    subst hb
    simp [error_message, he, hm]
  · intro b m hb he hm
    subst hb
    simp [error_message, he, hm]
  · intro b hb he hm
    subst hb
    simp [error_message, he, hm]

/-- Witness for `c5_message_rule`: the parse-failure branch picks the raw
text, and the `error.message` branch picks the nested message. -/
theorem c5_message_rule_witness :
    error_message 500 none "boom" = "boom" ∧
    error_message 400 (some (Json.obj [("error",
      Json.obj [("message", Json.str "Invalid parameter")])])) "" =
      "Invalid parameter" :=
  ⟨(c5_message_rule 500 none "boom").1 rfl (by decide),
   (c5_message_rule 400 (some (Json.obj [("error",
      Json.obj [("message", Json.str "Invalid parameter")])])) "").2.2.1
     (Json.obj [("error", Json.obj [("message", Json.str "Invalid parameter")])])
     (Json.obj [("message", Json.str "Invalid parameter")])
     "Invalid parameter" rfl rfl rfl⟩

/-! ## Claim C4 -/

/-- Claim C4: `_get_endpoint` follows the strict four-level precedence chain —
constructor override first, else environment override, else the catalog from
the most recent authentication, else the region-templated static URL — and
raises a `ValueError` naming the unknown service when all four are missing.
Each level shadows all levels below it (each conjunct assumes the levels
above it are absent). The fourth conjunct carries the `if template:` guard
of the source as the hypothesis `t ≠ ""`; every template in `BASE_URLS` is
non-empty, so the guard never fires in this program. -/
theorem c4_resolution_chain (s : ConoHaClient) (name : String) :
    (∀ v, Dict.get s._user_endpoints name = some v →
      s._get_endpoint name = .ok v) ∧
    (Dict.get s._user_endpoints name = none →
      ∀ v, Dict.get s._env_endpoints name = some v →
        s._get_endpoint name = .ok v) ∧
    (Dict.get s._user_endpoints name = none →
      Dict.get s._env_endpoints name = none →
      ∀ v, Dict.get s._catalog_endpoints name = some v →
        s._get_endpoint name = .ok v) ∧
    (Dict.get s._user_endpoints name = none →
      Dict.get s._env_endpoints name = none →
      Dict.get s._catalog_endpoints name = none →
      ∀ t, Dict.get BASE_URLS name = some t → t ≠ "" →
        s._get_endpoint name = .ok (pyFormatRegion t s.region)) ∧
    (Dict.get s._user_endpoints name = none →
      Dict.get s._env_endpoints name = none →
      Dict.get s._catalog_endpoints name = none →
      Dict.get BASE_URLS name = none →
      s._get_endpoint name = .error ("Unknown service: " ++ name)) := by
  refine ⟨?_, ?_, ?_, ?_, ?_⟩
  · intro v h1
    simp [ConoHaClient._get_endpoint, h1]
  · intro h1 v h2
    simp [ConoHaClient._get_endpoint, h1, h2]
  · intro h1 h2 v h3
    simp [ConoHaClient._get_endpoint, h1, h2, h3]
  · intro h1 h2 h3 t h4 h5
    simp [ConoHaClient._get_endpoint, h1, h2, h3, h4, beq_eq_false_iff_ne.mpr h5]
  · intro h1 h2 h3 h4
    simp [ConoHaClient._get_endpoint, h1, h2, h3, h4]

/-- Fixture for `c4_resolution_chain_witness`: all four sources populated for
`"compute"` (the spec's own precedence scenario). -/
def c4AllSources : ConoHaClient :=
  { exampleClient with
    _user_endpoints := [("compute", "https://user.compute.url")]
    _env_endpoints := [("compute", "https://env.compute.url")]
    _catalog_endpoints := [("compute", "https://catalog.compute.url")] }

/-- Fixture: user override removed. -/
def c4EnvTop : ConoHaClient := { c4AllSources with _user_endpoints := [] }

/-- Fixture: user and environment overrides removed. -/
def c4CatalogTop : ConoHaClient := { c4EnvTop with _env_endpoints := [] }

/-- Witness for `c4_resolution_chain`: each level shadows the ones below it,
falling through level by level as sources are removed, ending at the
templated region URL and, for an unknown name, the configuration error. -/
theorem c4_resolution_chain_witness :
    c4AllSources._get_endpoint "compute" = .ok "https://user.compute.url" ∧
    c4EnvTop._get_endpoint "compute" = .ok "https://env.compute.url" ∧
    c4CatalogTop._get_endpoint "compute" = .ok "https://catalog.compute.url" ∧
    exampleClient._get_endpoint "compute" = .ok "https://compute.c3j1.conoha.io" ∧
    exampleClient._get_endpoint "nonexistent" =
      .error "Unknown service: nonexistent" :=
  ⟨(c4_resolution_chain c4AllSources "compute").1 _ rfl,
   (c4_resolution_chain c4EnvTop "compute").2.1 rfl _ rfl,
   (c4_resolution_chain c4CatalogTop "compute").2.2.1 rfl rfl _ rfl,
   (c4_resolution_chain exampleClient "compute").2.2.2.1 rfl rfl rfl
     "https://compute.{region}.conoha.io" rfl (by decide),
   (c4_resolution_chain exampleClient "nonexistent").2.2.2.2 rfl rfl rfl rfl⟩

/-! ## Claim C6 -/

/-- Claim C6: on every successful (201) authentication the stored expiry is
the server-reported `expires_at` instant minus the fixed 300-second buffer,
and when the response omits `expires_at` it is the current time plus 86400
seconds minus the same buffer. -/
theorem c6_expiry_policy (s : ConoHaClient) (now : Int) (resp : IdentityResponse)
    (h : resp.status_code = 201) :
    (∀ t, resp.expires_at = some t →
      ((s.authenticate now resp).1)._token_expires_at = some (t - 300)) ∧
    (resp.expires_at = none →
      ((s.authenticate now resp).1)._token_expires_at =
        some (now + 86400 - 300)) := by
  constructor
  · intro t ht
    unfold ConoHaClient.authenticate
    simp only [h, ne_eq, not_true_eq_false, if_false, reduceIte, ht]
    rw [(parse_catalog_other_fields resp.catalog _).2.1]
    cases hp : resp.project <;> cases hu : resp.user <;> simp [hp, hu]
  · intro ht
    unfold ConoHaClient.authenticate
    simp only [h, ne_eq, not_true_eq_false, if_false, reduceIte, ht]
    rw [(parse_catalog_other_fields resp.catalog _).2.1]
    cases hp : resp.project <;> cases hu : resp.user <;> simp [hp, hu]

/-- Identity response fixture: a 201 success whose token expires at epoch
second 4070908800 (2099-01-01T00:00:00Z, the spec's scenario). -/
def respExpiring : IdentityResponse :=
  { status_code := 201
    subject_token := some "new-token-xyz"
    expires_at := some 4070908800
    project := some "tenant-abc"
    user := some "user-abc"
    catalog := []
    text := "" }

/-- Identity response fixture: a 201 success with no `expires_at`. -/
def respNoExpiry : IdentityResponse :=
  { status_code := 201
    subject_token := some "token-by-id"
    expires_at := none
    project := none
    user := none
    catalog := []
    text := "" }

/-- Witness for `c6_expiry_policy`: the spec's 2099 scenario gives that
instant minus 300 s, and an expiry-less response at `now = 1000` gives
`1000 + 86400 - 300`. -/
theorem c6_expiry_policy_witness :
    ((exampleClient.authenticate 0 respExpiring).1)._token_expires_at =
      some 4070908500 ∧
    ((exampleClient.authenticate 1000 respNoExpiry).1)._token_expires_at =
      some 87100 := by
  constructor
  · have := (c6_expiry_policy exampleClient 0 respExpiring rfl).1 4070908800 rfl
    simpa using this
  · have := (c6_expiry_policy exampleClient 1000 respNoExpiry rfl).2 rfl
    simpa using this

/-! ## Claim C8 -/

/-- Claim C8: `authenticate()` succeeds iff the identity exchange returns
status 201; any other status raises `AuthenticationError` whose message
carries the status and the raw body; on success the token is taken from the
`x-subject-token` response header and the tenant/user metadata from the JSON
body. -/
theorem c8_authenticate_success_criterion (s : ConoHaClient) (now : Int)
    (resp : IdentityResponse) :
    ((s.authenticate now resp).2.isOk = true ↔ resp.status_code = 201) ∧
    (resp.status_code ≠ 201 →
      (s.authenticate now resp).2 = .error (.authenticationError
        ("Authentication failed: " ++ toString resp.status_code ++ " " ++
          resp.text))) ∧
    (resp.status_code = 201 →
      ((s.authenticate now resp).1)._token = resp.subject_token ∧
      (∀ pid, resp.project = some pid →
        ((s.authenticate now resp).1)._tenant_id = some pid) ∧
      (∀ uid, resp.user = some uid →
        ((s.authenticate now resp).1)._user_id = some uid)) := by
  by_cases h : resp.status_code = 201
  · refine ⟨by simp [ConoHaClient.authenticate, h, Except.isOk, Except.toBool], fun hc => absurd h hc, ?_⟩
    intro _
    refine ⟨?_, ?_, ?_⟩
    · unfold ConoHaClient.authenticate
      simp only [h, ne_eq, not_true_eq_false, if_false, reduceIte]
      rw [(parse_catalog_other_fields resp.catalog _).1]
      cases hp : resp.project <;> cases hu : resp.user <;> simp [hp, hu]
    · intro pid hp
      unfold ConoHaClient.authenticate
      simp only [h, ne_eq, not_true_eq_false, if_false, reduceIte]
      rw [(parse_catalog_other_fields resp.catalog _).2.2.1]
      cases hu : resp.user <;> simp [hp, hu]
    · intro uid hu
      unfold ConoHaClient.authenticate
      simp only [h, ne_eq, not_true_eq_false, if_false, reduceIte]
      rw [(parse_catalog_other_fields resp.catalog _).2.2.2.1]
      cases hp : resp.project <;> simp [hp, hu]
  · refine ⟨by simp [ConoHaClient.authenticate, h, Except.isOk, Except.toBool], ?_, fun hc => absurd hc h⟩
    intro _
    simp [ConoHaClient.authenticate, h]

/-- Identity response fixture: a 401 failure from the identity service. -/
def respRejected : IdentityResponse :=
  { status_code := 401
    subject_token := none
    expires_at := none
    project := none
    user := none
    catalog := []
    text := "Unauthorized" }

/-- Witness for `c8_authenticate_success_criterion`: the 201 fixture succeeds
and stores header token and body metadata; the 401 fixture fails with the
status and raw body in the message. -/
theorem c8_authenticate_success_criterion_witness :
    ((exampleClient.authenticate 0 respExpiring).2.isOk = true) ∧
    ((exampleClient.authenticate 0 respExpiring).1)._token =
      some "new-token-xyz" ∧
    ((exampleClient.authenticate 0 respExpiring).1)._tenant_id =
      some "tenant-abc" ∧
    ((exampleClient.authenticate 0 respExpiring).1)._user_id =
      some "user-abc" ∧
    (exampleClient.authenticate 0 respRejected).2 =
      .error (.authenticationError "Authentication failed: 401 Unauthorized") := by
  refine ⟨?_, ?_, ?_, ?_, ?_⟩
  · exact (c8_authenticate_success_criterion exampleClient 0 respExpiring).1.mpr rfl
  · exact ((c8_authenticate_success_criterion exampleClient 0 respExpiring).2.2 rfl).1
  · exact ((c8_authenticate_success_criterion exampleClient 0 respExpiring).2.2 rfl).2.1
      "tenant-abc" rfl
  · exact ((c8_authenticate_success_criterion exampleClient 0 respExpiring).2.2 rfl).2.2
      "user-abc" rfl
  · have := (c8_authenticate_success_criterion exampleClient 0 respRejected).2.1
      (by decide)
    simpa using this

/-! ## Claim C9 -/

/-- Claim C9: `authenticate()` is atomic on failure — a non-201 identity
response raises `AuthenticationError` before any assignment runs, so the
client state (token, expiry, tenant id, user id, catalog endpoints, and every
other field) is returned exactly as it was. -/
theorem c9_authenticate_atomic (s : ConoHaClient) (now : Int)
    (resp : IdentityResponse) (h : resp.status_code ≠ 201) :
    (s.authenticate now resp).1 = s ∧
    (s.authenticate now resp).2 = .error (.authenticationError
      ("Authentication failed: " ++ toString resp.status_code ++ " " ++
        resp.text)) := by
  unfold ConoHaClient.authenticate
  simp [h]

/-- Witness for `c9_authenticate_atomic`: a populated client hit with a 401
identity response is returned field-for-field unchanged. -/
theorem c9_authenticate_atomic_witness :
    (c4AllSources.authenticate 0 respRejected).1 = c4AllSources ∧
    (c4AllSources.authenticate 0 respRejected).2 =
      .error (.authenticationError "Authentication failed: 401 Unauthorized") := by
  have := c9_authenticate_atomic c4AllSources 0 respRejected (by decide)
  simpa using this

/-! ## Claim C7 -/

/-- On a 201 identity response, `authenticate` returns `.ok` of the final
state's stored token (the Python method ends with `return self._token`). -/
theorem authenticate_ok_of_201 (s : ConoHaClient) (now : Int)
    (resp : IdentityResponse) (h : resp.status_code = 201) :
    s.authenticate now resp =
      ((s.authenticate now resp).1, .ok ((s.authenticate now resp).1)._token) := by
  unfold ConoHaClient.authenticate
  simp [h]

/-- Claim C7: the `token` property returns the cached token with no HTTP call
when a (truthy) token is stored and the current time is strictly below the
stored expiry; when no unexpired token is held but password-based credentials
are configured, it performs exactly one `authenticate()` call and returns the
refreshed token; with neither, it raises `AuthenticationError`. The middle
component of the result counts `authenticate()` invocations; `0` means no
HTTP exchange of any kind took place. -/
theorem c7_token_property (s : ConoHaClient) (now : Int) (resp : IdentityResponse) :
    (truthy s._token = true → s._is_token_expired now = false →
      s.token now resp = (s, 0, .ok s._token)) ∧
    ((truthy s._token = false ∨ s._is_token_expired now = true) →
      ((truthy s._username || truthy s._user_id) && truthy s._password) = true →
      resp.status_code = 201 →
      s.token now resp =
        ((s.authenticate now resp).1, 1,
          .ok ((s.authenticate now resp).1)._token)) ∧
    ((truthy s._token = false ∨ s._is_token_expired now = true) →
      ((truthy s._username || truthy s._user_id) && truthy s._password) = false →
      s.token now resp =
        (s, 0, .error (.authenticationError
          "No valid token. Call authenticate() first."))) := by
  refine ⟨?_, ?_, ?_⟩
  · intro h1 h2
    simp [ConoHaClient.token, h1, h2]
  · intro hinv hcred h201
    have hcond : (truthy s._token && !(s._is_token_expired now)) = false := by
      rcases hinv with h | h <;> simp [h]
    unfold ConoHaClient.token
    rw [authenticate_ok_of_201 s now resp h201]
    simp [hcond, hcred]
  · intro hinv hcred
    have hcond : (truthy s._token && !(s._is_token_expired now)) = false := by
      rcases hinv with h | h <;> simp [h]
    simp [ConoHaClient.token, hcond, hcred]

/-- Client fixture with no token but password credentials. -/
def clientNoToken : ConoHaClient := { exampleClient with _token := none }

/-- Client fixture with an expired token (stored expiry 900) and password
credentials. -/
def clientExpired : ConoHaClient :=
  { exampleClient with _token_expires_at := some 900 }

/-- Client fixture with no token and no credentials. -/
def clientNoCreds : ConoHaClient :=
  { exampleClient with
    _token := none
    _username := none
    _user_id := none
    _password := none }

/-- Witness for `c7_token_property`: a valid cached token is returned with
zero HTTP calls (both with no stored expiry and with `now` strictly below
the stored expiry); an absent or expired token with credentials triggers
exactly one `authenticate()`; no credentials and no token raises. -/
theorem c7_token_property_witness :
    exampleClient.token 1000 respExpiring =
      (exampleClient, 0, .ok (some "test-token-12345")) ∧
    clientExpired.token 899 respExpiring =
      (clientExpired, 0, .ok (some "test-token-12345")) ∧
    clientNoToken.token 1000 respExpiring =
      ((clientNoToken.authenticate 1000 respExpiring).1, 1,
        .ok ((clientNoToken.authenticate 1000 respExpiring).1)._token) ∧
    clientExpired.token 900 respExpiring =
      ((clientExpired.authenticate 900 respExpiring).1, 1,
        .ok ((clientExpired.authenticate 900 respExpiring).1)._token) ∧
    clientNoCreds.token 1000 respExpiring =
      (clientNoCreds, 0, .error (.authenticationError
        "No valid token. Call authenticate() first.")) :=
  ⟨(c7_token_property exampleClient 1000 respExpiring).1 rfl rfl,
   (c7_token_property clientExpired 899 respExpiring).1 rfl (by decide),
   (c7_token_property clientNoToken 1000 respExpiring).2.1 (Or.inl rfl) rfl rfl,
   (c7_token_property clientExpired 900 respExpiring).2.1 (Or.inr (by decide)) rfl rfl,
   (c7_token_property clientNoCreds 1000 respExpiring).2.2 (Or.inl rfl) rfl⟩

/-! ## Claim C10 -/

/-- Claim C10: a client constructed with a pre-supplied (non-empty) static
token performs no constructor auto-authentication, stores no expiry, is never
considered expired at any time, and its `token` property always returns the
static token with zero HTTP calls and without raising — whatever the other
constructor arguments and however much time has elapsed. -/
theorem c10_static_token (username password tenant_id user_id tenant_name :
      Option String) (region : String) (t : String) (timeout : Int)
    (endpoints environ : Dict) (ht : t ≠ "") (now : Int)
    (resp : IdentityResponse) :
    (ConoHaClient.init username password tenant_id user_id tenant_name region
      (some t) timeout endpoints environ).2 = false ∧
    ((ConoHaClient.init username password tenant_id user_id tenant_name region
      (some t) timeout endpoints environ).1)._token_expires_at = none ∧
    ((ConoHaClient.init username password tenant_id user_id tenant_name region
      (some t) timeout endpoints environ).1)._is_token_expired now = false ∧
    ((ConoHaClient.init username password tenant_id user_id tenant_name region
      (some t) timeout endpoints environ).1).token now resp =
      ((ConoHaClient.init username password tenant_id user_id tenant_name region
        (some t) timeout endpoints environ).1, 0, .ok (some t)) := by
  refine ⟨?_, rfl, rfl, ?_⟩
  · simp [ConoHaClient.init, truthy, ht]
  · simp [ConoHaClient.token, ConoHaClient.init, ConoHaClient._is_token_expired,
      truthy, ht]

/-- Witness for `c10_static_token`: the constructor call
`ConoHaClient(token="pre-existing-token", tenant_id="tid")` of the
repository's own test, probed a million seconds later. -/
theorem c10_static_token_witness :
    (ConoHaClient.init none none (some "tid") none none DEFAULT_REGION
      (some "pre-existing-token") 30 [] []).2 = false ∧
    ((ConoHaClient.init none none (some "tid") none none DEFAULT_REGION
      (some "pre-existing-token") 30 [] []).1)._token_expires_at = none ∧
    ((ConoHaClient.init none none (some "tid") none none DEFAULT_REGION
      (some "pre-existing-token") 30 [] []).1)._is_token_expired 1000000 = false ∧
    ((ConoHaClient.init none none (some "tid") none none DEFAULT_REGION
      (some "pre-existing-token") 30 [] []).1).token 1000000 respExpiring =
      ((ConoHaClient.init none none (some "tid") none none DEFAULT_REGION
        (some "pre-existing-token") 30 [] []).1, 0,
        .ok (some "pre-existing-token")) :=
  c10_static_token none none (some "tid") none none DEFAULT_REGION
    "pre-existing-token" 30 [] [] (by decide) 1000000 respExpiring

/-! ## Claim C3 -/

/-- Catalog fixture: one `compute` entry with a public endpoint. -/
def computeEntry : CatalogEntry :=
  { type := "compute"
    endpoints := [{ interface := some "public"
                    url := "https://compute.c3j1.conoha.io" }] }

/-- Identity response fixture: first successful authentication, whose catalog
carries the `compute` endpoint. -/
def respFirstAuth : IdentityResponse :=
  { status_code := 201
    subject_token := some "tok1"
    expires_at := none
    project := none
    user := none
    catalog := [computeEntry]
    text := "" }

/-- Identity response fixture: second successful authentication, whose
catalog is empty — in particular it has no `compute` service. -/
def respSecondAuth : IdentityResponse :=
  { status_code := 201
    subject_token := some "tok2"
    expires_at := none
    project := none
    user := none
    catalog := []
    text := "" }

/-- Claim C3, counterexample: authenticate once with a catalog carrying a
`compute` endpoint, then authenticate again successfully with an *empty*
catalog. The claim says the catalog layer is replaced wholesale, so the
`compute` entry must not survive the second authentication; in the code
`_parse_catalog` only assigns into the existing dict, so it does survive. -/
theorem c3_stale_entry_survives :
    respSecondAuth.catalog = [] ∧
    (((exampleClient.authenticate 0 respFirstAuth).1.authenticate 0
      respSecondAuth).2.isOk = true) ∧
    Dict.get (((exampleClient.authenticate 0 respFirstAuth).1.authenticate 0
      respSecondAuth).1)._catalog_endpoints "compute" =
      some "https://compute.c3j1.conoha.io" := by
  exact ⟨rfl, rfl, rfl⟩

/-- Claim C3, amended: the catalog layer is merged incrementally, never
replaced wholesale. On every successful (201) authentication, each service
name the new catalog writes (a recognised type with a public endpoint)
afterwards maps to the written URL — the first `"public"` endpoint of the
last entry of that type — and every service name the new catalog does not
write keeps exactly the value it had before the call, including entries
recorded by earlier authentications. -/
theorem c3_catalog_merge (s : ConoHaClient) (now : Int) (resp : IdentityResponse)
    (h201 : resp.status_code = 201) (name : String) :
    (∀ u, catalogValue resp.catalog name = some u →
      Dict.get ((s.authenticate now resp).1)._catalog_endpoints name = some u) ∧
    (catalogValue resp.catalog name = none →
      Dict.get ((s.authenticate now resp).1)._catalog_endpoints name =
        Dict.get s._catalog_endpoints name) := by
  have hbase : Dict.get ((s.authenticate now resp).1)._catalog_endpoints name =
      match catalogValue resp.catalog name with
      | some u => some u
      | none => Dict.get s._catalog_endpoints name := by
    unfold ConoHaClient.authenticate
    simp only [h201, ne_eq, not_true_eq_false, if_false, reduceIte]
    rw [parse_catalog_lookup resp.catalog _ name]
    cases hp : resp.project <;> cases hu : resp.user <;> simp [hp, hu]
  constructor
  · intro u hu
    rw [hbase, hu]
  · intro hnone
    rw [hbase, hnone]

/-- Witness for `c3_catalog_merge`: the first authentication writes the
`compute` entry from its catalog, and re-authenticating the resulting client
against the empty-catalog response leaves that entry untouched. -/
theorem c3_catalog_merge_witness :
    Dict.get ((exampleClient.authenticate 0
      respFirstAuth).1)._catalog_endpoints "compute" =
      some "https://compute.c3j1.conoha.io" ∧
    Dict.get (((exampleClient.authenticate 0 respFirstAuth).1.authenticate 0
      respSecondAuth).1)._catalog_endpoints "compute" =
      Dict.get ((exampleClient.authenticate 0
        respFirstAuth).1)._catalog_endpoints "compute" :=
  ⟨(c3_catalog_merge exampleClient 0 respFirstAuth rfl "compute").1
     "https://compute.c3j1.conoha.io" rfl,
   (c3_catalog_merge (exampleClient.authenticate 0 respFirstAuth).1 0
     respSecondAuth rfl "compute").2 rfl⟩

/-! ## Claim C1 -/

/-- Response script for `c1_no_retry_on_401`: the first `requests.request`
call yields a 401, any further call would yield a 200 — so a retrying
executor would succeed on its second attempt. -/
def c1transport : Nat → HttpResponse := fun n =>
  if n = 0 then { status_code := 401, bodyJson := none, text := "Unauthorized" }
  else { status_code := 200, bodyJson := some (Json.obj []), text := "ok-body" }

/-- The request outcome of the C1 scenario: a client with a valid token and
password credentials issues a request whose first response is a 401. -/
def c1result : RequestResult :=
  BaseService._request exampleClient 0 respExpiring c1transport

/-- Claim C1, evaluated at its failing input: with password credentials
configured and a 401 on the first attempt, the claim (and the repository's
own tests `test_request_retries_on_401` / `test_request_retry_fails_again`)
require exactly one `authenticate()` call and one retry; the code's
`_request` has no retry path — it makes exactly one HTTP attempt, performs
zero `authenticate()` calls, and raises `TokenExpiredError` immediately,
never reaching the 200 the transport would return to a retry. -/
theorem c1_no_retry_on_401 :
    c1result.httpCalls = 1 ∧
    c1result.authCalls = 0 ∧
    c1result.result = .error (.raised
      ⟨ErrClass.TokenExpiredError, "Unauthorized", 401⟩) := by
  exact ⟨rfl, rfl, rfl⟩
